import Mathlib

/-!
A shallow embedding of the Apple TV weather app (`src/js/main.js`):
the focus-navigation state machine (`updateFocusableElements`,
`focusElement`, `focusNext`, `focusPrevious`, `activateFocusedElement`,
`toggleCityDropdown`, `closeDropdown`), the persistence helpers
(`saveCity`, `loadSavedCity`), the data-load path (`loadWeatherData`)
and the chart past/future split (`updateCurrentWeather`, `drawChart`).
DOM-only effects (CSS classes, input focus, scrolling, canvas drawing)
are outside the embedded state; the document is modelled by the results
of the element queries the code performs.
-/

namespace AppleTVWeather

/-- One interactive UI element (a DOM node): a stable identity plus
whether the element is currently interactable (not hidden/disabled).
The source never reads the flag; it is carried so that statements about
interactability can be stated. -/
structure FocusTarget where
  id : Nat
  interactable : Bool
deriving DecidableEq, Repr

/-- The parts of the document the controller queries: the
`getElementById` results for the three normal-mode controls (possibly
null) and the document-order, duplicate-free-by-DOM result of
`querySelectorAll` for the `.city-option` elements. -/
structure Dom where
  citySelector : Option FocusTarget
  range24h : Option FocusTarget
  range48h : Option FocusTarget
  cityOptions : List FocusTarget
deriving DecidableEq, Repr

/-- The navigation state owned by the app object: `focusableElements`,
`currentFocusIndex` (a JS number, embedded as `Int`) and
`isDropdownOpen`. -/
structure NavState where
  focusableElements : List FocusTarget
  currentFocusIndex : Int
  isDropdownOpen : Bool
deriving DecidableEq, Repr

/-- JS array indexing `arr[i]`: `undefined` (here `none`) outside
`[0, length-1]`. -/
def jsIndex (l : List α) (i : Int) : Option α :=
  if i < 0 then none else l.get? i.toNat

/-- `Math.min` on two numbers. -/
def jsMin (a b : Int) : Int :=
  if a ≤ b then a else b

/-- `Math.max` on two numbers. -/
def jsMax (a b : Int) : Int :=
  if a ≤ b then b else a

/-- `updateFocusableElements` (main.js:114-130): when the dropdown is
open, every `.city-option` element; otherwise the three controls.
Either list then has its null entries filtered out
(`.filter(el => el !== null)`); `Array.from(querySelectorAll(...))`
never yields nulls, embedded as `map some`. -/
def updateFocusableElements (dom : Dom) (s : NavState) : NavState :=
  if s.isDropdownOpen then
    { s with focusableElements := (dom.cityOptions.map some).filterMap id }
  else
    { s with focusableElements :=
        [dom.citySelector, dom.range24h, dom.range48h].filterMap id }

/-- `focusElement` (main.js:132-151): early return on an empty set,
otherwise `currentFocusIndex := Math.max(0, Math.min(index, length-1))`;
the visual focus and scrolling effects are DOM-only. -/
def focusElement (index : Int) (s : NavState) : NavState :=
  if s.focusableElements.length = 0 then s
  else
    { s with
      currentFocusIndex := jsMax 0 (jsMin index ((s.focusableElements.length : Int) - 1)) }

/-- `focusNext` (main.js:153-155). -/
def focusNext (s : NavState) : NavState :=
  focusElement (s.currentFocusIndex + 1) s

/-- `focusPrevious` (main.js:157-159). -/
def focusPrevious (s : NavState) : NavState :=
  focusElement (s.currentFocusIndex - 1) s

/-- `activateFocusedElement` (main.js:161-166): reads the element at the
current index; if it is defined, returns it as the activation to
dispatch (`element.click()`), otherwise returns nothing. The navigation
state itself is unchanged either way. -/
def activateFocusedElement (s : NavState) : NavState × Option FocusTarget :=
  match jsIndex s.focusableElements s.currentFocusIndex with
  | some el => (s, some el)
  | none => (s, none)

/-- `toggleCityDropdown` (main.js:171-184): flips `isDropdownOpen`; the
two JS branches differ only in a CSS class toggle (outside the embedded
state) and both recompute the focusable set and call `focusElement(0)`. -/
def toggleCityDropdown (dom : Dom) (s : NavState) : NavState :=
  focusElement 0
    (updateFocusableElements dom { s with isDropdownOpen := !s.isDropdownOpen })

/-- `closeDropdown` (main.js:186-193): only when the dropdown is open,
clears the flag, recomputes the focusable set and calls
`focusElement(0)`; otherwise nothing happens at all. -/
def closeDropdown (dom : Dom) (s : NavState) : NavState :=
  if s.isDropdownOpen then
    focusElement 0 (updateFocusableElements dom { s with isDropdownOpen := false })
  else s

/-- The navigation state after the constructor and `init`
(main.js:10-58): index 0, dropdown closed, then
`updateFocusableElements`. -/
def initNavState (dom : Dom) : NavState :=
  updateFocusableElements dom
    { focusableElements := [], currentFocusIndex := 0, isDropdownOpen := false }

/-- The FocusIndex invariant of the data model: whenever the focusable
set is non-empty, the index is in `[0, length-1]`. -/
def FocusInv (s : NavState) : Prop :=
  s.focusableElements ≠ [] →
    0 ≤ s.currentFocusIndex ∧
      s.currentFocusIndex < (s.focusableElements.length : Int)

/-- Parallel hourly sequences of a forecast response. Values are
embedded as integers; the specified properties concern positions in the
sequences, never arithmetic on the values. -/
structure Hourly where
  time : List Int
  temperature_2m : List Int
  precipitation : List Int
  relative_humidity_2m : List Int
  wind_speed_10m : List Int
  weather_code : List Int
deriving DecidableEq, Repr

/-- The current-conditions readout `updateCurrentWeather` writes to the
page. -/
structure CurrentDisplay where
  currentTemp : Option Int
  humidity : Option Int
  windSpeed : Option Int
  precipitationNow : Option Int
  weatherCode : Option Int
deriving DecidableEq, Repr

/-- `updateCurrentWeather` (main.js:283-301): every current value is
read at `currentIndex = 24`. -/
def updateCurrentWeather (data : Hourly) : CurrentDisplay :=
  let currentIndex : Int := 24
  { currentTemp := jsIndex data.temperature_2m currentIndex
    humidity := jsIndex data.relative_humidity_2m currentIndex
    windSpeed := jsIndex data.wind_speed_10m currentIndex
    precipitationNow := jsIndex data.precipitation currentIndex
    weatherCode := jsIndex data.weather_code currentIndex }

/-- JS `arr.slice(a, b)` for `0 ≤ a ≤ b`: elements from `a` up to
`b - 1`, truncated at the end of the array. -/
def jsSlice (l : List α) (a b : Nat) : List α :=
  (l.drop a).take (b - a)

/-- The series handed to the chart library by `drawChart`
(main.js:340-547): the past/future split of each sequence, their
concatenations used as labels/data, and the x position of the "now"
marker line (`times[currentIndex]`). -/
structure ChartConfig where
  pastTimes : List Int
  futureTimes : List Int
  pastTemps : List Int
  futureTemps : List Int
  pastPrecip : List Int
  futurePrecip : List Int
  allTimes : List Int
  allTemps : List Int
  allPrecip : List Int
  nowMarker : Option Int
deriving DecidableEq, Repr

/-- `drawChart` (main.js:340-362): with `currentIndex = 24`, past series
are `slice(0, 25)`, future series are
`slice(24, 24 + currentTimeRange + 1)`, and the combined series are
`past ++ future.slice(1)`. -/
def drawChart (currentTimeRange : Nat) (hourly : Hourly) : ChartConfig :=
  let currentIndex : Nat := 24
  let pastTimes := jsSlice hourly.time 0 (currentIndex + 1)
  let futureTimes := jsSlice hourly.time currentIndex (currentIndex + currentTimeRange + 1)
  let pastTemps := jsSlice hourly.temperature_2m 0 (currentIndex + 1)
  let futureTemps := jsSlice hourly.temperature_2m currentIndex (currentIndex + currentTimeRange + 1)
  let pastPrecip := jsSlice hourly.precipitation 0 (currentIndex + 1)
  let futurePrecip := jsSlice hourly.precipitation currentIndex (currentIndex + currentTimeRange + 1)
  { pastTimes := pastTimes
    futureTimes := futureTimes
    pastTemps := pastTemps
    futureTemps := futureTemps
    pastPrecip := pastPrecip
    futurePrecip := futurePrecip
    allTimes := pastTimes ++ futureTimes.drop 1
    allTemps := pastTemps ++ futureTemps.drop 1
    allPrecip := pastPrecip ++ futurePrecip.drop 1
    nowMarker := jsIndex hourly.time (currentIndex : Int) }

/-- The whole app state: the navigation substate plus the data/display
substate that `loadWeatherData` touches. -/
structure AppState where
  nav : NavState
  currentCity : String
  currentTimeRange : Nat
  weatherData : Option Hourly
  display : Option CurrentDisplay
  chart : Option ChartConfig
  lastUpdate : Option Int
  loadingShown : Bool
  errorShown : Bool
deriving DecidableEq, Repr

/-- `loadWeatherData` (main.js:242-281), with the network outcome passed
in: show loading, hide error; on success store the data, update the
current readout, redraw the chart, stamp the update time and hide
loading; on failure show the error and hide loading. -/
def loadWeatherData (fetchResult : Except String Hourly) (now : Int)
    (s : AppState) : AppState :=
  let s1 := { s with loadingShown := true, errorShown := false }
  match fetchResult with
  | Except.ok data =>
      { s1 with
        weatherData := some data
        display := some (updateCurrentWeather data)
        chart := some (drawChart s.currentTimeRange data)
        lastUpdate := some now
        loadingShown := false }
  | Except.error _ =>
      { s1 with errorShown := true, loadingShown := false }

/-- `startAutoRefresh` (main.js:552-558): each timer tick just calls
`loadWeatherData`. -/
def autoRefreshTick (fetchResult : Except String Hourly) (now : Int)
    (s : AppState) : AppState :=
  loadWeatherData fetchResult now s

/-- `saveCity` (main.js:206-212), with the store outcome passed in: a
failure is caught and logged (the returned list is the console output);
nothing propagates. -/
def saveCity (setResult : Except String Unit) : List String :=
  match setResult with
  | Except.ok _ => []
  | Except.error e => ["Could not save city to localStorage: " ++ e]

/-- `loadSavedCity` (main.js:214-221), with the store outcome passed in:
a failure is caught, logged and turned into `null` (`none`). Returns
the loaded value and the console output. -/
def loadSavedCity (getResult : Except String (Option String)) :
    Option String × List String :=
  match getResult with
  | Except.ok v => (v, [])
  | Except.error e => (none, ["Could not load city from localStorage: " ++ e])

/-- JS `x || dflt` on a possibly-null string: `null` and the empty
string are falsy. -/
def jsOrDefault (v : Option String) (dflt : String) : String :=
  match v with
  | some s => if s = "" then dflt else s
  | none => dflt

/-- The constructor's `this.loadSavedCity() || 'tokyo'` (main.js:12). -/
def initialCurrentCity (getResult : Except String (Option String)) : String :=
  jsOrDefault (loadSavedCity getResult).1 "tokyo"

/-! Concrete elements and states used by witnesses and counterexamples. -/

/-- A concrete interactable element. -/
def tSel : FocusTarget := ⟨0, true⟩

/-- A concrete interactable element. -/
def tR24 : FocusTarget := ⟨1, true⟩

/-- A concrete interactable element. -/
def tR48 : FocusTarget := ⟨2, true⟩

/-- A concrete city option. -/
def cOptA : FocusTarget := ⟨10, true⟩

/-- A concrete city option. -/
def cOptB : FocusTarget := ⟨11, true⟩

/-- A document with all three controls present and two city options. -/
def wDom : Dom := ⟨some tSel, some tR24, some tR48, [cOptA, cOptB]⟩

/-- A normal-mode state: three controls focusable, index 1. -/
def wNav : NavState := ⟨[tSel, tR24, tR48], 1, false⟩

/-- A state whose focusable set is empty. -/
def emptyNav : NavState := ⟨[], 2, true⟩

/-- A document in which the three normal controls are absent (null
lookups) and two city options exist: closing the dropdown recomputes an
empty focusable set. -/
def cexDom : Dom := ⟨none, none, none, [cOptA, cOptB]⟩

/-- A city option that is not interactable (hidden/disabled). -/
def hiddenOpt : FocusTarget := ⟨7, false⟩

/-- A document whose only city option is not interactable. -/
def c8Dom : Dom := ⟨some tSel, some tR24, some tR48, [hiddenOpt]⟩

/-! Helper lemmas. -/

/-- `focusElement` never changes the focusable set. -/
theorem focusElement_elements (i : Int) (s : NavState) :
    (focusElement i s).focusableElements = s.focusableElements := by
  unfold focusElement
  split <;> rfl

/-- `Math.min` agrees with `min`. -/
theorem jsMin_eq (a b : Int) : jsMin a b = min a b := by
  unfold jsMin
  split <;> omega

/-- `Math.max` agrees with `max`. -/
theorem jsMax_eq (a b : Int) : jsMax a b = max a b := by
  unfold jsMax
  split <;> omega

/-- On a non-empty set, `focusElement` clamps the requested index. -/
theorem focusElement_index (i : Int) (s : NavState)
    (h : s.focusableElements ≠ []) :
    (focusElement i s).currentFocusIndex =
      max 0 (min i ((s.focusableElements.length : Int) - 1)) := by
  unfold focusElement
  rw [if_neg (by simpa [List.length_eq_zero] using h)]
  show jsMax 0 (jsMin i ((s.focusableElements.length : Int) - 1)) = _
  rw [jsMax_eq, jsMin_eq]

/-- On a non-empty set, `focusElement 0` lands on index 0. -/
theorem focusElement_zero_index (s : NavState)
    (h : s.focusableElements ≠ []) :
    (focusElement 0 s).currentFocusIndex = 0 := by
  have hl : 0 < s.focusableElements.length := List.length_pos.mpr h
  rw [focusElement_index 0 s h]
  omega

/-- On an empty set, `focusElement` changes nothing. -/
theorem focusElement_empty (i : Int) (s : NavState)
    (h : s.focusableElements = []) : focusElement i s = s := by
  unfold focusElement
  rw [if_pos (by simp [h])]

/-- After `focusElement`, the invariant holds outright. -/
theorem focusElement_inv (i : Int) (s : NavState) :
    FocusInv (focusElement i s) := by
  intro hne
  by_cases hlen : s.focusableElements.length = 0
  · have hnil : s.focusableElements = [] := List.length_eq_zero.mp hlen
    rw [focusElement_empty i s hnil] at hne
    exact absurd hnil hne
  · have hne' : s.focusableElements ≠ [] := fun hh => hlen (by simp [hh])
    have h1 : 1 ≤ s.focusableElements.length := Nat.one_le_iff_ne_zero.mpr hlen
    rw [focusElement_index i s hne', focusElement_elements]
    constructor <;> omega

/-- `activateFocusedElement` leaves the navigation state unchanged. -/
theorem activateFocusedElement_fst (s : NavState) :
    (activateFocusedElement s).1 = s := by
  unfold activateFocusedElement
  split <;> rfl

/-- Filtering nulls out of a list that has none is the identity. -/
theorem filterMap_id_map_some (l : List α) : (l.map some).filterMap id = l := by
  induction l with
  | nil => rfl
  | cons a t ih => simp [List.filterMap_cons, ih]

/-- `updateFocusableElements` keeps the index and the flag. -/
theorem updateFocusableElements_index (dom : Dom) (s : NavState) :
    (updateFocusableElements dom s).currentFocusIndex = s.currentFocusIndex := by
  unfold updateFocusableElements
  split <;> rfl

/-- With the dropdown open, the recomputed set is exactly the
document-order city options. -/
theorem updateFocusableElements_open (dom : Dom) (s : NavState)
    (h : s.isDropdownOpen = true) :
    (updateFocusableElements dom s).focusableElements = dom.cityOptions := by
  unfold updateFocusableElements
  rw [if_pos h]
  exact filterMap_id_map_some dom.cityOptions

/-- With the dropdown closed, the recomputed set is the three controls
with null lookups removed. -/
theorem updateFocusableElements_closed (dom : Dom) (s : NavState)
    (h : s.isDropdownOpen = false) :
    (updateFocusableElements dom s).focusableElements =
      [dom.citySelector, dom.range24h, dom.range48h].filterMap id := by
  unfold updateFocusableElements
  rw [if_neg (by simp [h])]

/-- After `k` presses of next, the index is the start plus `k`, clamped
above by `length - 1`; the set is unchanged. -/
theorem focusNext_iterate (s : NavState) (h : s.focusableElements ≠ [])
    (h0 : 0 ≤ s.currentFocusIndex)
    (h1 : s.currentFocusIndex < (s.focusableElements.length : Int)) :
    ∀ k : Nat,
      (focusNext^[k] s).currentFocusIndex =
          min (s.currentFocusIndex + k) ((s.focusableElements.length : Int) - 1)
        ∧ (focusNext^[k] s).focusableElements = s.focusableElements := by
  intro k
  induction k with
  | zero =>
    refine ⟨?_, rfl⟩
    simp only [Function.iterate_zero, id_eq, Nat.cast_zero, add_zero]
    omega
  | succ n ih =>
    obtain ⟨hi, he⟩ := ih
    rw [Function.iterate_succ_apply']
    have hne : (focusNext^[n] s).focusableElements ≠ [] := he ▸ h
    constructor
    · rw [focusNext, focusElement_index _ _ hne, hi, he]
      push_cast
      omega
    · rw [focusNext, focusElement_elements, he]

/-- After `k` presses of previous, the index is the start minus `k`,
clamped below by 0; the set is unchanged. -/
theorem focusPrevious_iterate (s : NavState) (h : s.focusableElements ≠ [])
    (h0 : 0 ≤ s.currentFocusIndex)
    (h1 : s.currentFocusIndex < (s.focusableElements.length : Int)) :
    ∀ k : Nat,
      (focusPrevious^[k] s).currentFocusIndex =
          max 0 (s.currentFocusIndex - k)
        ∧ (focusPrevious^[k] s).focusableElements = s.focusableElements := by
  intro k
  induction k with
  | zero =>
    refine ⟨?_, rfl⟩
    simp only [Function.iterate_zero, id_eq, Nat.cast_zero, sub_zero]
    omega
  | succ n ih =>
    obtain ⟨hi, he⟩ := ih
    rw [Function.iterate_succ_apply']
    have hne : (focusPrevious^[n] s).focusableElements ≠ [] := he ▸ h
    have hl : 0 < s.focusableElements.length := List.length_pos.mpr h
    constructor
    · rw [focusPrevious, focusElement_index _ _ hne, hi, he]
      push_cast
      omega
    · rw [focusPrevious, focusElement_elements, he]

/-- Taking at least one element keeps the head. -/
theorem head_of_take (l : List α) (n : Nat) (hn : 1 ≤ n) :
    (l.take n).head? = l.head? := by
  cases l with
  | nil => simp
  | cons x t =>
    cases n with
    | zero => exact absurd hn (by omega)
    | succ m => rfl

/-- The head after dropping `a` elements is the element at index `a`. -/
theorem head_of_drop (l : List α) (a : Nat) :
    (l.drop a).head? = l.get? a := by
  induction l generalizing a with
  | nil => simp
  | cons x t ih =>
    cases a with
    | zero => rfl
    | succ m => exact ih m

/-- The head of a slice starting at `a` is the element at index `a`. -/
theorem jsSlice_head (l : List α) (a b : Nat) (hab : a < b) :
    (jsSlice l a b).head? = l.get? a := by
  unfold jsSlice
  rw [head_of_take _ _ (by omega), head_of_drop]

/-- Dropping the head of a slice shifts its start by one. -/
theorem jsSlice_drop_one (l : List α) (a b : Nat) (hab : a < b) :
    (jsSlice l a b).drop 1 = jsSlice l (a + 1) b := by
  unfold jsSlice
  obtain ⟨c, hc⟩ : ∃ c, b - a = c + 1 := ⟨b - a - 1, by omega⟩
  have hc' : b - (a + 1) = c := by omega
  rw [hc, hc', List.drop_take, List.drop_drop]
  norm_num

/-! Claim theorems. -/

/-- C1: whenever the FocusSet is non-empty, after any navigation command
(`focusNext`, `focusPrevious`, `activateFocusedElement`,
`toggleCityDropdown`, `closeDropdown`) or any recomputation of the
FocusSet (including the one at startup), `currentFocusIndex` is in
`[0, length-1]`: never negative and never out of bounds. Stated as:
the invariant holds initially and is preserved by every command. -/
theorem c1_focus_index_invariant (dom : Dom) (s : NavState) (h : FocusInv s) :
    FocusInv (initNavState dom)
      ∧ FocusInv (focusNext s)
      ∧ FocusInv (focusPrevious s)
      ∧ FocusInv (activateFocusedElement s).1
      ∧ FocusInv (toggleCityDropdown dom s)
      ∧ FocusInv (closeDropdown dom s) := by
  refine ⟨?_, focusElement_inv _ _, focusElement_inv _ _, ?_, ?_, ?_⟩
  · intro hne
    have hlen : 0 < (initNavState dom).focusableElements.length :=
      List.length_pos.mpr hne
    have hidx : (initNavState dom).currentFocusIndex = 0 :=
      updateFocusableElements_index dom _
    rw [hidx]
    exact ⟨le_refl 0, by exact_mod_cast hlen⟩
  · rw [activateFocusedElement_fst]
    exact h
  · exact focusElement_inv _ _
  · unfold closeDropdown
    split
    · exact focusElement_inv _ _
    · exact h

/-- C1 witness: the invariant transfers at a concrete document and
state. -/
theorem c1_witness :
    FocusInv (initNavState wDom)
      ∧ FocusInv (focusNext wNav)
      ∧ FocusInv (focusPrevious wNav)
      ∧ FocusInv (activateFocusedElement wNav).1
      ∧ FocusInv (toggleCityDropdown wDom wNav)
      ∧ FocusInv (closeDropdown wDom wNav) :=
  c1_focus_index_invariant wDom wNav (fun _ => by constructor <;> decide)

/-- C2: on a non-empty set of length `N` with the index in range,
pressing next `N + 5` times leaves the index at `N - 1`: no wraparound,
clamped at the last element. -/
theorem c2_moveNext_clamps_to_last (s : NavState)
    (h : s.focusableElements ≠ []) (h0 : 0 ≤ s.currentFocusIndex)
    (h1 : s.currentFocusIndex < (s.focusableElements.length : Int)) :
    (focusNext^[s.focusableElements.length + 5] s).currentFocusIndex =
      (s.focusableElements.length : Int) - 1 := by
  obtain ⟨hi, -⟩ :=
    focusNext_iterate s h h0 h1 (s.focusableElements.length + 5)
  rw [hi]
  push_cast
  omega

/-- C2 witness: from index 1 of a 3-element set, 8 presses of next end
at index 2. -/
theorem c2_witness :
    (focusNext^[wNav.focusableElements.length + 5] wNav).currentFocusIndex =
      (wNav.focusableElements.length : Int) - 1 :=
  c2_moveNext_clamps_to_last wNav (by decide) (by decide) (by decide)

/-- C3: on a non-empty set with the index in range, pressing previous at
least `length` times lands on index 0, and a further press from index 0
stays at 0: no wraparound at the front. -/
theorem c3_movePrevious_reaches_zero (s : NavState)
    (h : s.focusableElements ≠ []) (h0 : 0 ≤ s.currentFocusIndex)
    (h1 : s.currentFocusIndex < (s.focusableElements.length : Int)) :
    (∀ k : Nat, s.focusableElements.length ≤ k →
        (focusPrevious^[k] s).currentFocusIndex = 0)
      ∧ (s.currentFocusIndex = 0 →
          (focusPrevious s).currentFocusIndex = 0) := by
  have hl : 0 < s.focusableElements.length := List.length_pos.mpr h
  constructor
  · intro k hk
    obtain ⟨hi, -⟩ := focusPrevious_iterate s h h0 h1 k
    rw [hi]
    have : (s.focusableElements.length : Int) ≤ (k : Int) := by exact_mod_cast hk
    omega
  · intro hz
    rw [focusPrevious, focusElement_index _ _ h, hz]
    omega

/-- C3 witness: from index 1 of a 3-element set, 3 presses of previous
end at index 0. -/
theorem c3_witness : (focusPrevious^[3] wNav).currentFocusIndex = 0 :=
  (c3_movePrevious_reaches_zero wNav (by decide) (by decide) (by decide)).1
    3 (by decide)

/-- C4 counterexample: with a document whose three normal controls are
absent, starting from the initial state, opening the dropdown and moving
to the second option, `closeDropdown` recomputes an empty FocusSet and
leaves `currentFocusIndex` at 1, not 0 — the claimed reset
"regardless of emptiness" fails. -/
theorem c4_counterexample :
    (closeDropdown cexDom
        (focusNext (toggleCityDropdown cexDom (initNavState cexDom)))
      ).currentFocusIndex ≠ 0 := by decide

/-- C4 (amended): a recomputation of the FocusSet resets the index to 0
whenever the recomputed set is non-empty — in particular
`setMode(OverlayOpen)` followed by `setMode(Normal)` (toggling twice)
lands on index 0, not the pre-overlay index; when the recomputed set is
empty the index is left unchanged instead. -/
theorem c4_recompute_resets_index (dom : Dom) (s : NavState) :
    ((toggleCityDropdown dom s).focusableElements ≠ [] →
        (toggleCityDropdown dom s).currentFocusIndex = 0)
      ∧ (s.isDropdownOpen = true →
          (closeDropdown dom s).focusableElements ≠ [] →
            (closeDropdown dom s).currentFocusIndex = 0)
      ∧ ((toggleCityDropdown dom (toggleCityDropdown dom s)).focusableElements ≠ [] →
          (toggleCityDropdown dom (toggleCityDropdown dom s)).currentFocusIndex = 0)
      ∧ ((toggleCityDropdown dom s).focusableElements = [] →
          (toggleCityDropdown dom s).currentFocusIndex = s.currentFocusIndex) := by
  refine ⟨?_, ?_, ?_, ?_⟩
  · intro hne
    unfold toggleCityDropdown at hne ⊢
    rw [focusElement_elements] at hne
    exact focusElement_zero_index _ hne
  · intro hopen hne
    unfold closeDropdown at hne ⊢
    rw [if_pos hopen] at hne ⊢
    rw [focusElement_elements] at hne
    exact focusElement_zero_index _ hne
  · intro hne
    unfold toggleCityDropdown at hne ⊢
    rw [focusElement_elements] at hne
    exact focusElement_zero_index _ hne
  · intro he
    unfold toggleCityDropdown at he ⊢
    rw [focusElement_elements] at he
    rw [focusElement_empty _ _ he, updateFocusableElements_index]

/-- C5: on an empty FocusSet, `activateFocusedElement` dispatches no
activation and changes no state (and, being total, raises nothing). -/
theorem c5_activate_empty_noop (s : NavState)
    (h : s.focusableElements = []) :
    activateFocusedElement s = (s, none) := by
  unfold activateFocusedElement jsIndex
  rw [h]
  simp

/-- C5 witness: a concrete empty-set state. -/
theorem c5_witness : activateFocusedElement emptyNav = (emptyNav, none) :=
  c5_activate_empty_noop emptyNav rfl

/-- C6: `closeDropdown` while the dropdown is already closed is a strict
no-op: the whole navigation state (mode, index and set) is unchanged. -/
theorem c6_close_when_normal_noop (dom : Dom) (s : NavState)
    (h : s.isDropdownOpen = false) :
    closeDropdown dom s = s := by
  unfold closeDropdown
  rw [if_neg (by simp [h])]

/-- C6 witness: a concrete closed-dropdown state. -/
theorem c6_witness : closeDropdown wDom wNav = wNav :=
  c6_close_when_normal_noop wDom wNav rfl

/-- C7: a data refresh — `loadWeatherData`, also as triggered by the
auto-refresh timer — never alters the dropdown mode, the focus index or
the focusable set, whatever the fetch outcome and whatever the state
(overlay open included). -/
theorem c7_refresh_preserves_navigation (r : Except String Hourly)
    (now : Int) (s : AppState) :
    (loadWeatherData r now s).nav = s.nav
      ∧ (autoRefreshTick r now s).nav.isDropdownOpen = s.nav.isDropdownOpen
      ∧ (autoRefreshTick r now s).nav.currentFocusIndex = s.nav.currentFocusIndex
      ∧ (autoRefreshTick r now s).nav.focusableElements = s.nav.focusableElements := by
  have hnav : (loadWeatherData r now s).nav = s.nav := by
    unfold loadWeatherData
    cases r <;> rfl
  have htick : (autoRefreshTick r now s).nav = s.nav := hnav
  exact ⟨hnav, by rw [htick], by rw [htick], by rw [htick]⟩

/-- C8 counterexample: opening the dropdown over a document whose only
city option is not interactable puts that non-interactable element into
the FocusSet — hidden/disabled elements are not excluded. -/
theorem c8_counterexample :
    hiddenOpt ∈ (toggleCityDropdown c8Dom (initNavState c8Dom)).focusableElements
      ∧ hiddenOpt.interactable = false := by decide

/-- C8 (amended): after every recomputation the FocusSet preserves the
document order of the underlying element lists and contains no
duplicates provided those lists do (document-order query results,
pairwise-distinct id lookups); however, interactability is not checked:
non-interactable (hidden/disabled) elements are not excluded — only
null lookups are filtered out. -/
theorem c8_focus_set_order_nodup (dom : Dom) (s : NavState) :
    (s.isDropdownOpen = true →
        (updateFocusableElements dom s).focusableElements = dom.cityOptions)
      ∧ (s.isDropdownOpen = false →
          (updateFocusableElements dom s).focusableElements =
            [dom.citySelector, dom.range24h, dom.range48h].filterMap id)
      ∧ (s.isDropdownOpen = true → dom.cityOptions.Nodup →
          (updateFocusableElements dom s).focusableElements.Nodup)
      ∧ (∀ a b c : FocusTarget, s.isDropdownOpen = false →
          dom.citySelector = some a → dom.range24h = some b →
            dom.range48h = some c → a ≠ b → a ≠ c → b ≠ c →
              (updateFocusableElements dom s).focusableElements = [a, b, c]
                ∧ (updateFocusableElements dom s).focusableElements.Nodup) := by
  refine ⟨updateFocusableElements_open dom s, updateFocusableElements_closed dom s,
    ?_, ?_⟩
  · intro hopen hnd
    rw [updateFocusableElements_open dom s hopen]
    exact hnd
  · intro a b c hclosed ha hb hc hab hac hbc
    rw [updateFocusableElements_closed dom s hclosed, ha, hb, hc]
    constructor
    · simp [List.filterMap_cons]
    · simp [List.filterMap_cons, List.nodup_cons, hab, hac, hbc]

/-- C9: both persistence operations are total functions of the store
outcome: a failing store is logged, never propagated; a failed load
behaves exactly like a successful load of no value, and the app then
falls back to the default city `tokyo`. -/
theorem c9_persistence_total_on_failure (e : String) :
    (loadSavedCity (Except.error e)).1 = none
      ∧ (loadSavedCity (Except.error e)).2 ≠ []
      ∧ (loadSavedCity (Except.error e)).1 = (loadSavedCity (Except.ok none)).1
      ∧ initialCurrentCity (Except.error e) = "tokyo"
      ∧ initialCurrentCity (Except.ok none) = "tokyo"
      ∧ saveCity (Except.error e) ≠ []
      ∧ saveCity (Except.ok ()) = [] := by
  refine ⟨rfl, ?_, rfl, rfl, rfl, ?_, rfl⟩
  · simp [loadSavedCity]
  · simp [saveCity]

/-- C10: the displayed current weather is read at index 24 of every
hourly sequence; the chart's past series are indices 0..24, its future
series start at index 24, the combined series is the first `25 + range`
entries, and the past split and "now" marker do not depend on the
configured range. -/
theorem c10_now_boundary_at_24 (r r' : Nat) (d : Hourly) :
    (updateCurrentWeather d).currentTemp = d.temperature_2m.get? 24
      ∧ (updateCurrentWeather d).humidity = d.relative_humidity_2m.get? 24
      ∧ (updateCurrentWeather d).windSpeed = d.wind_speed_10m.get? 24
      ∧ (updateCurrentWeather d).precipitationNow = d.precipitation.get? 24
      ∧ (updateCurrentWeather d).weatherCode = d.weather_code.get? 24
      ∧ (drawChart r d).pastTemps = d.temperature_2m.take 25
      ∧ (drawChart r d).futureTemps = (d.temperature_2m.drop 24).take (r + 1)
      ∧ (drawChart r d).futureTemps.head? = d.temperature_2m.get? 24
      ∧ (drawChart r d).allTemps = d.temperature_2m.take (25 + r)
      ∧ (drawChart r d).pastTimes = (drawChart r' d).pastTimes
      ∧ (drawChart r d).nowMarker = (drawChart r' d).nowMarker
      ∧ (drawChart r d).nowMarker = d.time.get? 24 := by
  refine ⟨rfl, rfl, rfl, rfl, rfl, ?_, ?_, ?_, ?_, rfl, rfl, rfl⟩
  · show jsSlice d.temperature_2m 0 25 = d.temperature_2m.take 25
    unfold jsSlice
    rfl
  · show jsSlice d.temperature_2m 24 (24 + r + 1) =
      (d.temperature_2m.drop 24).take (r + 1)
    unfold jsSlice
    congr 1
    omega
  · exact jsSlice_head d.temperature_2m 24 (24 + r + 1) (by omega)
  · show jsSlice d.temperature_2m 0 25 ++
        (jsSlice d.temperature_2m 24 (24 + r + 1)).drop 1 =
      d.temperature_2m.take (25 + r)
    rw [jsSlice_drop_one d.temperature_2m 24 (24 + r + 1) (by omega)]
    unfold jsSlice
    simp only [List.drop_zero, Nat.sub_zero]
    have h1 : 24 + r + 1 - (24 + 1) = r := by omega
    rw [h1, List.take_add]

end AppleTVWeather
